import Mathlib

/-!
Verification of the solana-validator-failover core against its source.

The Go sources are shallowly embedded: pure fragments become Lean
functions, effectful fragments become functions over explicit inputs that
stand for the results of the effects (RPC calls, file writes, child
processes).  Go `uint64` values are `Nat` with an explicit `% 2 ^ 64`
where the source can wrap; Go `int` / `int64` are `Int`; Go durations are
modelled in milliseconds.  Fallible Go calls are `Except String`.
External library functions (the xxh3 hash, the OS path normalizer, the
keygen parser, process execution) enter as explicit function parameters:
every theorem below holds for an arbitrary implementation of them.
-/

namespace SVF

/-- Decidable equality for `Except`, used so that concrete runs of the
embedded code can be checked by `decide`. -/
instance {ε α : Type} [DecidableEq ε] [DecidableEq α] : DecidableEq (Except ε α)
  | Except.error a, Except.error b =>
    if h : a = b then isTrue (by rw [h]) else isFalse (by simp [h])
  | Except.error _, Except.ok _ => isFalse (by simp)
  | Except.ok _, Except.error _ => isFalse (by simp)
  | Except.ok a, Except.ok b =>
    if h : a = b then isTrue (by rw [h]) else isFalse (by simp [h])

/-! ## utils.RunCommand (internal/utils/utils.go)

`RunCommand` either spawns the command (recording which argv it handed to
`exec.Command`) or, in dry-run mode, spawns nothing and reports success.
`exec` stands for the operating system running the argv and reporting the
combined-output error, which the source returns unchanged. -/

/-- Mirror of `utils.RunCommandParams`. -/
structure RunCommandParams where
  commandSlice : List String
  dryRun : Bool
  logDebug : Bool
  deriving Repr, DecidableEq

/-- Result of one `utils.RunCommand` call: which argv (if any) was handed
to `exec.Command`, and the error returned to the caller. -/
structure RunCommandOutcome where
  spawned : Option (List String)
  result : Except String Unit
  deriving Repr, DecidableEq

/-- Mirror of `utils.RunCommand`: on `DryRun` it logs and returns `nil`
without building a command; otherwise it runs the argv and propagates the
error from `CombinedOutput`. -/
def runCommand (exec : List String → Except String Unit)
    (params : RunCommandParams) : RunCommandOutcome :=
  if params.dryRun then { spawned := none, result := Except.ok () }
  else { spawned := some params.commandSlice, result := exec params.commandSlice }

/-- Mirror of Go `strings.Split(s, " ")`: split at every single space,
keeping empty fields. -/
def splitSpace (s : String) : List String :=
  (s.split (fun c => c = ' ')).map id

/-! ## NodeInfo tower-file hash (internal/failover/nodeinfo.go)

`ComputeTowerFileHashFromBytes` formats the 64-bit xxh3 digest with
`fmt.Sprintf("xxh3:%x", hash)`: lowercase hex, no leading zeroes.  The
digest itself comes from the external `github.com/zeebo/xxh3` library and
is a parameter `xxh3` here; the source guarantees only that both sides
call the same function. -/

/-- Lowercase hexadecimal rendering of a `Nat`, as Go `%x` prints a
`uint64` (minimal digits, `"0"` for zero). -/
def natToHexLower (n : Nat) : String :=
  String.mk (Nat.toDigits 16 n)

/-- Mirror of `NodeInfo.ComputeTowerFileHashFromBytes`: hash the bytes
with xxh3 and render as `"xxh3:<lowercase-hex>"`. -/
def computeTowerFileHashFromBytes (xxh3 : List Nat → Nat)
    (towerFileBytes : List Nat) : String :=
  "xxh3:" ++ natToHexLower (xxh3 towerFileBytes % 2 ^ 64)

/-! ## Server tower phase (internal/failover/types.go, handleFailoverStream,
after the second Decode)

The region from the hash check to the completion encode is a function of
the decoded message fields and of the outcomes of the external effects:
the tower-file write and close, the set-identity child process, and the
`GetCurrentSlot` RPC.  Each control-flow exit of the source is one
constructor. -/

/-- Inputs of the passive-side tower phase: the relevant decoded message
fields plus the outcome of each external effect the source performs. -/
structure TowerPhaseInput where
  towerFileBytes : List Nat
  towerFileHash : String
  activeHostname : String
  activeTowerFile : String
  passiveTowerFile : String
  passiveSetIdentityCommand : String
  userEnv : String
  isDryRunFailover : Bool
  logDebugEnabled : Bool
  failoverStartSlot : Nat
  failoverEndSlotPrev : Nat
  writeOk : Bool
  closeOk : Bool
  currentSlotResult : Except String Nat
  deriving Repr, DecidableEq

/-- The recovery rsync command printed on hash mismatch, with the values
the source interpolates into its format string. -/
def rsyncRecoveryCommand (user host activeTowerFile passiveTowerFile : String) : String :=
  "  rsync -avz --no-perms --no-i-r --no-progress --no-motd --no-times -e ssh -i <YOUR-SSH-KEY> -o PubkeyAcceptedKeyTypes=+ssh-ed25519 -o HostKeyAlgorithms=+ssh-ed25519 -o BatchMode=yes -o StrictHostKeyChecking=no "
    ++ user ++ "@" ++ host ++ ":" ++ activeTowerFile ++ " " ++ passiveTowerFile ++ " \n"

/-- Mirror of the slot-marker update (types.go lines 401-410): on RPC
failure the message field keeps its previous value; otherwise it is
clamped up to the client-supplied start slot. -/
def serverFailoverEndSlotUpdate (failoverStartSlot previousEndSlot : Nat)
    (currentSlotResult : Except String Nat) : Nat :=
  match currentSlotResult with
  | Except.error _ => previousEndSlot
  | Except.ok s => if s < failoverStartSlot then failoverStartSlot else s

/-- State carried by the completion exit of the tower phase. -/
structure TowerPhaseCompleted where
  writtenTowerBytes : List Nat
  passiveSyncTowerEndStamped : Bool
  passiveSetIdentityStartStamped : Bool
  passiveSetIdentityEndStamped : Bool
  spawnedSetIdentity : Option (List String)
  failoverEndSlot : Nat
  isSuccessfullyCompleted : Bool
  deriving Repr, DecidableEq

/-- One constructor per control-flow exit of the source region. -/
inductive TowerPhaseResult where
  | fatalHashMismatch (rsyncCommand : String) (manualSetIdentityCommand : String)
  | abortWriteError
  | abortCloseError (writtenTowerBytes : List Nat)
  | fatalSetIdentityError (writtenTowerBytes : List Nat)
  | completed (st : TowerPhaseCompleted)
  deriving Repr, DecidableEq

/-- Mirror of `Server.handleFailoverStream` from the hash check to the
completion encode (types.go lines 338-416). -/
def serverTowerPhase (xxh3 : List Nat → Nat)
    (exec : List String → Except String Unit)
    (inp : TowerPhaseInput) : TowerPhaseResult :=
  let computed := computeTowerFileHashFromBytes xxh3 inp.towerFileBytes
  if computed ≠ inp.towerFileHash then
    TowerPhaseResult.fatalHashMismatch
      (rsyncRecoveryCommand inp.userEnv inp.activeHostname inp.activeTowerFile inp.passiveTowerFile)
      inp.passiveSetIdentityCommand
  else if !inp.writeOk then TowerPhaseResult.abortWriteError
  else if !inp.closeOk then TowerPhaseResult.abortCloseError inp.towerFileBytes
  else
    let rc := runCommand exec
      { commandSlice := splitSpace inp.passiveSetIdentityCommand
        dryRun := inp.isDryRunFailover
        logDebug := inp.logDebugEnabled }
    match rc.result with
    | Except.error _ => TowerPhaseResult.fatalSetIdentityError inp.towerFileBytes
    | Except.ok _ =>
      TowerPhaseResult.completed
        { writtenTowerBytes := inp.towerFileBytes
          passiveSyncTowerEndStamped := true
          passiveSetIdentityStartStamped := true
          passiveSetIdentityEndStamped := true
          spawnedSetIdentity := rc.spawned
          failoverEndSlot :=
            serverFailoverEndSlotUpdate inp.failoverStartSlot inp.failoverEndSlotPrev
              inp.currentSlotResult
          isSuccessfullyCompleted := true }

/-- Whether the source reached the `towerFile.Write` call. -/
def TowerPhaseResult.towerWriteAttempted : TowerPhaseResult → Bool
  | TowerPhaseResult.fatalHashMismatch _ _ => false
  | _ => true

/-- The bytes that ended up persisted in the passive tower file, if the
write succeeded. -/
def TowerPhaseResult.persistedBytes : TowerPhaseResult → Option (List Nat)
  | TowerPhaseResult.fatalHashMismatch _ _ => none
  | TowerPhaseResult.abortWriteError => none
  | TowerPhaseResult.abortCloseError b => some b
  | TowerPhaseResult.fatalSetIdentityError b => some b
  | TowerPhaseResult.completed st => some st.writtenTowerBytes

/-- Convenience projections used by concrete evaluations. -/
def TowerPhaseResult.completedEndSlot : TowerPhaseResult → Option Nat
  | TowerPhaseResult.completed st => some st.failoverEndSlot
  | _ => none

/-- Whether the phase reached the completion encode with the success flag. -/
def TowerPhaseResult.completedOk : TowerPhaseResult → Bool
  | TowerPhaseResult.completed st => st.isSuccessfullyCompleted
  | _ => false

/-! ## Client slot marker (internal/failover/client.go, Client.Start) -/

/-- Mirror of `SetFailoverStartSlot(slot + 1)`: the start marker is the
slot after the observed one (uint64 increment). -/
def clientFailoverStartSlot (observedSlot : Nat) : Nat :=
  (observedSlot + 1) % 2 ^ 64

/-! ## Role resolver and admission (internal/validator/validator.go)

`IsActive`/`IsPassive` compare the locally observed gossip pubkey with the
configured identities.  `makeActive` runs on the side that is about to
become active (it hosts the server); `makePassive` runs on the departing
active side (it dials the server).  Each admission is modelled as a
function of exactly the observations the source consults before handing
control to the failover server or client. -/

/-- A gossip node as the validator sees it (internal/solana/node.go). -/
structure GossipNodeM where
  gossipIP : String
  pubkey : String
  version : String
  deriving Repr, DecidableEq

/-- Mirror of `Validator.IsActive`. -/
def validatorIsActive (gossipPubkey activeIdentityPubkey : String) : Bool :=
  gossipPubkey == activeIdentityPubkey

/-- Mirror of `Validator.IsPassive`. -/
def validatorIsPassive (gossipPubkey passiveIdentityPubkey : String) : Bool :=
  gossipPubkey == passiveIdentityPubkey

/-- Control-flow exits of `Validator.makeActive` before the failover
server is constructed and started. -/
inductive MakeActiveAdmission where
  | alreadyActive
  | activePeerNotInGossip (message : String)
  | removeTowerFileError (message : String)
  | towerFilePolicyError (message : String)
  | proceedToServer (deletedTowerFile : Bool)
  deriving Repr, DecidableEq

/-- Mirror of `Validator.makeActive` (validator.go lines 533-597) up to
`failoverServer.Start()`: refuse when already active; refuse when no
gossip node advertises the ACTIVE identity pubkey; apply the passive-side
tower-file policy; otherwise start the server. -/
def makeActiveAdmission (isActive : Bool)
    (nodeFromPubkey : String → Except String GossipNodeM)
    (activePubkey activeKeyFile towerFile : String)
    (towerFileExists autoDeleteWhenPassive : Bool)
    (removeResult : Except String Unit) : MakeActiveAdmission :=
  if isActive then MakeActiveAdmission.alreadyActive
  else
    match nodeFromPubkey activePubkey with
    | Except.error e =>
      MakeActiveAdmission.activePeerNotInGossip
        ("active peer not found in gossip with pubkey " ++ activePubkey
          ++ " from file " ++ activeKeyFile ++ ": " ++ e)
    | Except.ok _ =>
      if autoDeleteWhenPassive && towerFileExists then
        match removeResult with
        | Except.error e => MakeActiveAdmission.removeTowerFileError e
        | Except.ok _ => MakeActiveAdmission.proceedToServer true
      else if !autoDeleteWhenPassive && towerFileExists then
        MakeActiveAdmission.towerFilePolicyError
          ("tower file exists and validator.tower.auto_empty_when_passive is false - delete it and re-run: "
            ++ towerFile)
      else MakeActiveAdmission.proceedToServer false

/-- Control-flow exits of `Validator.makePassive` before the failover
client is constructed and started. -/
inductive MakePassiveAdmission where
  | alreadyPassive
  | towerFileMissing (message : String)
  | towerFileEmpty (message : String)
  | proceedToClient
  deriving Repr, DecidableEq

/-- Mirror of `Validator.makePassive` (validator.go lines 603-655) up to
peer selection and `failoverClient.Start()`.  The source consults only
the local role and the local tower file here: it makes no cluster-RPC
query at all on this side, so the admission is a function of exactly
these inputs. -/
def makePassiveAdmission (isPassive : Bool) (towerFile : String)
    (towerFileExists : Bool) (towerFileSize : Nat) : MakePassiveAdmission :=
  if isPassive then MakePassiveAdmission.alreadyPassive
  else if !towerFileExists then
    MakePassiveAdmission.towerFileMissing ("tower file does not exist: " ++ towerFile)
  else if towerFileSize = 0 then
    MakePassiveAdmission.towerFileEmpty ("tower file is empty: " ++ towerFile)
  else MakePassiveAdmission.proceedToClient

/-- A concrete cluster in which some node advertises the active identity
pubkey but NO node advertises the passive identity pubkey
(`gossipNodeFromPubkey` in internal/solana/client.go errors for it). -/
def gossipWithoutPassivePeer : String → Except String GossipNodeM :=
  fun pk =>
    if pk = "ActivePub" then Except.ok { gossipIP := "10.0.0.1", pubkey := "ActivePub", version := "2.0.0" }
    else Except.error ("gossip node not found for pubkey: " ++ pk)

/-! ## Credit-rank sampling and post-flight monitoring
(internal/failover/stream.go, types.go, validator.go)

`PullActiveIdentityVoteCreditsSample` appends one sample to the
per-pubkey list in the message; `PullActiveIdentityVoteCreditsSamples`
loops, sleeping a hard-coded `5 * time.Second` between successful pulls
and warning only once more than two samples have accumulated.
`fetch i` stands for the i-th `GetCreditRankedVoteAccountFromPubkey`
RPC result and `times i` for the i-th `time.Now()`. -/

/-- One credit sample (internal/failover/creditsamples.go). -/
structure CreditsSample where
  voteAccountPubkey : String
  voteRank : Int
  credits : Int
  timestamp : Nat
  deriving Repr, DecidableEq

/-- Default-valued sample, standing for the Go zero value. -/
def defaultCreditsSample : CreditsSample :=
  { voteAccountPubkey := "", voteRank := 0, credits := 0, timestamp := 0 }

/-- The vote-account fields the sampler reads (`EpochCredits` rows are
`[epoch, credits, previousCredits]`). -/
structure VoteAccountM where
  epochCredits : List (List Int)
  deriving Repr, DecidableEq

/-- The `CreditSamples` map, as an association list keyed by identity
pubkey. -/
abbrev CreditSamplesMap : Type := List (String × List CreditsSample)

/-- Map lookup with the Go zero value (missing key reads as `nil`). -/
def samplesLookup (m : CreditSamplesMap) (k : String) : List CreditsSample :=
  match m.find? (fun kv => kv.fst == k) with
  | some kv => kv.snd
  | none => []

/-- Mirror of initialize-if-absent followed by `append`: the sample list
for `k` grows by one element. -/
def samplesAppend (m : CreditSamplesMap) (k : String) (s : CreditsSample) : CreditSamplesMap :=
  match m.find? (fun kv => kv.fst == k) with
  | some _ => m.map (fun kv => if kv.fst == k then (kv.fst, kv.snd ++ [s]) else kv)
  | none => m ++ [(k, [s])]

/-- Mirror of the credits computation in
`Stream.PullActiveIdentityVoteCreditsSample`: last epoch entry credits
minus the previous entry credits (0 when there is no previous entry or no
entries at all). -/
def creditsFromEpochCredits (ec : List (List Int)) : Int :=
  if 0 < ec.length then
    let lastIndex := ec.length - 1
    let currentCredits := (ec.getD lastIndex []).getD 1 0
    let previousCredits := if 0 < lastIndex then (ec.getD (lastIndex - 1) []).getD 1 0 else 0
    currentCredits - previousCredits
  else 0

/-- Mirror of `Stream.PullActiveIdentityVoteCreditsSample` as a function
of the RPC result and the sampled clock. -/
def pullActiveIdentityVoteCreditsSample
    (fetchResult : Except String (VoteAccountM × Int)) (now : Nat)
    (pubkey : String) (m : CreditSamplesMap) : Except String CreditSamplesMap :=
  match fetchResult with
  | Except.error e => Except.error ("failed to get vote accounts: " ++ e)
  | Except.ok (va, creditRank) =>
    Except.ok (samplesAppend m pubkey
      { voteAccountPubkey := ""
        voteRank := creditRank
        credits := creditsFromEpochCredits va.epochCredits
        timestamp := now })

/-- Observable outcome of `Stream.PullActiveIdentityVoteCreditsSamples`:
the updated map, which consecutive sample indices were warned about, the
sleeps performed between pulls (milliseconds), and the error (only the
single-sample mode propagates one). -/
structure PullSamplesOutcome where
  samples : CreditSamplesMap
  warnings : List (Nat × Nat)
  sleepsMs : List Nat
  err : Option String
  deriving Repr, DecidableEq

/-- The sleep between multi-sample pulls is `interval := 5 * time.Second`,
a literal in `Stream.PullActiveIdentityVoteCreditsSamples`; the function
never reads the configured `monitor.credit_samples.interval`. -/
def creditSamplesPullIntervalMs : Nat := 5000

/-- The multi-sample loop body: on a pull error the iteration `continue`s
(no sleep, no warning); on success the warning fires only when the
accumulated list has MORE than two samples and the last pull shows no
credit increase over the one before it, then the loop sleeps 5 s. -/
def pullSamplesLoop (fetch : Nat → Except String (VoteAccountM × Int))
    (times : Nat → Nat) (pubkey : String) :
    Nat → Nat → CreditSamplesMap → CreditSamplesMap × List (Nat × Nat) × List Nat
  | _, 0, m => (m, [], [])
  | i, remaining + 1, m =>
    match pullActiveIdentityVoteCreditsSample (fetch i) (times i) pubkey m with
    | Except.error _ => pullSamplesLoop fetch times pubkey (i + 1) remaining m
    | Except.ok m2 =>
      let samples := samplesLookup m2 pubkey
      let lastSample := samples.getD (samples.length - 1) defaultCreditsSample
      let previousSample := samples.getD (samples.length - 2) defaultCreditsSample
      let warned := 2 < samples.length && lastSample.credits ≤ previousSample.credits
      let rest := pullSamplesLoop fetch times pubkey (i + 1) remaining m2
      (rest.fst,
        (if warned then [(i - 1, i)] else []) ++ rest.snd.fst,
        creditSamplesPullIntervalMs :: rest.snd.snd)

/-- Mirror of `Stream.PullActiveIdentityVoteCreditsSamples`: zero samples
returns immediately, one sample propagates the pull error, two or more
run the spinner loop (which swallows pull errors). -/
def pullActiveIdentityVoteCreditsSamples
    (fetch : Nat → Except String (VoteAccountM × Int)) (times : Nat → Nat)
    (pubkey : String) (m : CreditSamplesMap) (nSamples : Nat) : PullSamplesOutcome :=
  if nSamples = 0 then { samples := m, warnings := [], sleepsMs := [], err := none }
  else if nSamples = 1 then
    match pullActiveIdentityVoteCreditsSample (fetch 1) (times 1) pubkey m with
    | Except.error e => { samples := m, warnings := [], sleepsMs := [], err := some e }
    | Except.ok m2 => { samples := m2, warnings := [], sleepsMs := [], err := none }
  else
    let r := pullSamplesLoop fetch times pubkey 1 nSamples m
    { samples := r.fst, warnings := r.snd.fst, sleepsMs := r.snd.snd, err := none }

/-- Mirror of `Stream.GetVoteCreditRankDifference`: needs at least two
samples, returns `(-(last - first), first, last)` over vote ranks. -/
def getVoteCreditRankDifference (pubkey : String) (m : CreditSamplesMap) :
    Except String (Int × Int × Int) :=
  let samples := samplesLookup m pubkey
  if samples.length < 2 then
    Except.error "not enough vote credit samples to calculate difference"
  else
    let first := (samples.getD 0 defaultCreditsSample).voteRank
    let last := (samples.getD (samples.length - 1) defaultCreditsSample).voteRank
    Except.ok (-1 * (last - first), first, last)

/-- Credit-samples block of the failover monitor configuration
(internal/validator/config.go). -/
structure CreditSamplesConfig where
  count : Nat
  interval : String
  deriving Repr, DecidableEq

/-- Monitor block of the failover configuration. -/
structure MonitorConfigM where
  creditSamples : CreditSamplesConfig
  deriving Repr, DecidableEq

/-- Default `validator.failover.monitor.credit_samples.count`
(internal/config/config.go). -/
def defaultFailoverMonitorCreditSamplesCount : Nat := 5

/-- Default `validator.failover.monitor.credit_samples.interval`
(internal/config/config.go). -/
def defaultFailoverMonitorCreditSamplesInterval : String := "5s"

/-- The `failover.ServerConfig` composite literal built by
`Validator.makeActive` (validator.go lines 576-592) omits the
`MonitorConfig` field, so the server receives the Go zero value: a
credit-samples count of 0 and an empty interval, whatever the loaded
configuration said. -/
def makeActiveServerMonitorConfig : MonitorConfigM :=
  { creditSamples := { count := 0, interval := "" } }

/-- Mirror of the post-flight monitoring tail of
`Server.handleFailoverStream` (types.go lines 435-449): pull
`GetMonitorConfig().CreditSamples.Count` samples, then (only when the
pull reported no error) report the vote-credit rank difference. -/
def serverPostFlightMonitoring (fetch : Nat → Except String (VoteAccountM × Int))
    (times : Nat → Nat) (pubkey : String) (m : CreditSamplesMap) (count : Nat) :
    PullSamplesOutcome × Option (Except String (Int × Int × Int)) :=
  let po := pullActiveIdentityVoteCreditsSamples fetch times pubkey m count
  match po.err with
  | some _ => (po, none)
  | none => (po, some (getVoteCreditRankDifference pubkey po.samples))

/-! ## Leader-slot computation (internal/solana/client.go,
GetTimeToNextLeaderSlotForPubkey, epoch-relative variant)

The source fetches the current slot, the epoch info and the leader
schedule, converts each epoch-relative schedule entry to an absolute slot
(uint64 arithmetic), scans for the first entry strictly beyond the
current slot using 0 as a not-found sentinel, and multiplies the slot
delta by the average slot time.  Durations are in milliseconds. -/

/-- The two epoch-info fields the computation reads. -/
structure EpochInfoM where
  absoluteSlot : Nat
  slotIndex : Nat
  deriving Repr, DecidableEq

/-- Go uint64 subtraction `a - b` (wrapping). -/
def u64Sub (a b : Nat) : Nat := (a + 2 ^ 64 - b % 2 ^ 64) % 2 ^ 64

/-- Go uint64 addition `a + b` (wrapping). -/
def u64Add (a b : Nat) : Nat := (a + b) % 2 ^ 64

/-- The leader schedule: pubkey to epoch-relative slot indices, in RPC
order. -/
abbrev LeaderSchedule : Type := List (String × List Nat)

/-- Map lookup for the leader schedule. -/
def scheduleLookup (schedule : LeaderSchedule) (pubkey : String) : Option (List Nat) :=
  match schedule.find? (fun kv => kv.fst == pubkey) with
  | some kv => some kv.snd
  | none => none

/-- Mirror of the source's scan: `var nextLeaderSlot uint64` stays 0
unless some converted slot exceeds the current slot, and the loop breaks
at the first one that does. -/
def findNextLeaderSlot (firstSlotOfEpoch currentSlot : Nat) : List Nat → Nat
  | [] => 0
  | relativeSlot :: rest =>
    let absoluteSlot := u64Add firstSlotOfEpoch relativeSlot
    if currentSlot < absoluteSlot then absoluteSlot
    else findNextLeaderSlot firstSlotOfEpoch currentSlot rest

/-- Mirror of `Client.GetTimeToNextLeaderSlotForPubkey` (epoch-relative
variant): each `Except` input stands for one RPC in source order, and the
average slot time is fetched only after a future slot was found, as in
the source. -/
def getTimeToNextLeaderSlotForPubkey
    (currentSlotResult : Except String Nat)
    (epochInfoResult : Except String EpochInfoM)
    (leaderScheduleResult : Except String LeaderSchedule)
    (avgSlotTimeResult : Except String Nat)
    (pubkey : String) : Except String (Bool × Nat) :=
  match currentSlotResult with
  | Except.error e => Except.error ("failed to get current slot: " ++ e)
  | Except.ok currentSlot =>
    match epochInfoResult with
    | Except.error e => Except.error ("failed to get epoch info: " ++ e)
    | Except.ok epochInfo =>
      let firstSlotOfEpoch := u64Sub epochInfo.absoluteSlot epochInfo.slotIndex
      match leaderScheduleResult with
      | Except.error e => Except.error ("failed to get leader schedule: " ++ e)
      | Except.ok leaderSchedule =>
        match scheduleLookup leaderSchedule pubkey with
        | none => Except.ok (false, 0)
        | some relativeSlots =>
          let nextLeaderSlot := findNextLeaderSlot firstSlotOfEpoch currentSlot relativeSlots
          if nextLeaderSlot = 0 then Except.ok (false, 0)
          else
            let slotsUntilLeader := nextLeaderSlot - currentSlot
            match avgSlotTimeResult with
            | Except.error e => Except.error ("failed to get average slot time: " ++ e)
            | Except.ok avgSlotTime => Except.ok (true, slotsUntilLeader * avgSlotTime)

/-- Modelled from the spec: the leader-slot estimate described in §4.1 of
the specification — convert each epoch-relative entry to an absolute
slot, pick the first one strictly greater than the current slot, return
`(true, slot_delta * average_slot_time)`, and `(false, 0)` both when the
pubkey is absent and when no future entry remains.  This is the
comparison point for the refinement theorem; the executable embedding of
the source is `getTimeToNextLeaderSlotForPubkey` above. -/
def timeToNextLeaderSlotSpec (currentSlot : Nat) (epochInfo : EpochInfoM)
    (leaderSchedule : LeaderSchedule) (avgSlotTime : Nat) (pubkey : String) : Bool × Nat :=
  let firstSlotOfEpoch := u64Sub epochInfo.absoluteSlot epochInfo.slotIndex
  match scheduleLookup leaderSchedule pubkey with
  | none => (false, 0)
  | some relativeSlots =>
    match (relativeSlots.map (fun r => u64Add firstSlotOfEpoch r)).find?
        (fun a => decide (currentSlot < a)) with
    | none => (false, 0)
    | some nextLeaderSlot => (true, (nextLeaderSlot - currentSlot) * avgSlotTime)

/-! ## Average slot time (internal/solana/client.go, getAverageSlotTime,
performance-samples variant)

The cache is consulted first (30 s window); on a stale cache the source
makes up to three `GetRecentPerformanceSamples` attempts, sleeping one
second after each failed attempt except the last, computes
`sample_period_secs / num_slots` in milliseconds from the first usable
sample, and falls back to 400 ms when every attempt fails.  The
read/write lock and its double-checked re-test serialize concurrent
callers; under this sequential embedding both checks see the same clock,
so they collapse into the single freshness test below. -/

/-- The fields of one recent performance sample the source reads. -/
structure PerformanceSample where
  samplePeriodSecs : Nat
  numSlots : Nat
  deriving Repr, DecidableEq

/-- The process-wide performance cache (durations in milliseconds). -/
structure PerformanceCache where
  avgSlotTimeMs : Nat
  lastUpdatedMs : Nat
  deriving Repr, DecidableEq

/-- Observable outcome of one `getAverageSlotTime` call. -/
structure AvgSlotTimeOutcome where
  avgSlotTimeMs : Nat
  cache : PerformanceCache
  fetchesAttempted : Nat
  sleepsMs : List Nat
  deriving Repr, DecidableEq

/-- Whether one `GetRecentPerformanceSamples` result satisfies the
source's success test (`err == nil && len(samples) > 0 &&
samples[0].NumSlots > 0`), and if so the computed average in
milliseconds (`SamplePeriodSecs / NumSlots * 1000`, truncated). -/
def avgFromAttempt : Except String (List PerformanceSample) → Option Nat
  | Except.ok (s :: _) =>
    if 0 < s.numSlots then some (s.samplePeriodSecs * 1000 / s.numSlots) else none
  | Except.ok [] => none
  | Except.error _ => none

/-- The retry loop of `getAverageSlotTime`: attempt index and remaining
attempts; a sleep of 1 s follows every failed attempt except the last.
Returns (attempts made, sleeps, first successful average if any). -/
def avgSlotTimeAttempts (fetch : Nat → Except String (List PerformanceSample)) :
    Nat → Nat → Nat × List Nat × Option Nat
  | _, 0 => (0, [], none)
  | i, remaining + 1 =>
    match avgFromAttempt (fetch i) with
    | some ms => (1, [], some ms)
    | none =>
      if remaining = 0 then (1, [], none)
      else
        let rest := avgSlotTimeAttempts fetch (i + 1) remaining
        (rest.fst + 1, 1000 :: rest.snd.fst, rest.snd.snd)

/-- Mirror of `Client.getAverageSlotTime` (performance-samples variant):
cached value inside the 30 s window, else up to three fetches with the
first usable sample winning, else the 400 ms fallback; the cache is
rewritten in the stale cases. -/
def getAverageSlotTime (nowMs : Nat) (cache : PerformanceCache)
    (fetch : Nat → Except String (List PerformanceSample)) : AvgSlotTimeOutcome :=
  if nowMs - cache.lastUpdatedMs < 30000 then
    { avgSlotTimeMs := cache.avgSlotTimeMs, cache := cache, fetchesAttempted := 0, sleepsMs := [] }
  else
    let r := avgSlotTimeAttempts fetch 0 3
    match r.snd.snd with
    | some ms =>
      { avgSlotTimeMs := ms
        cache := { avgSlotTimeMs := ms, lastUpdatedMs := nowMs }
        fetchesAttempted := r.fst
        sleepsMs := r.snd.fst }
    | none =>
      { avgSlotTimeMs := 400
        cache := { avgSlotTimeMs := 400, lastUpdatedMs := nowMs }
        fetchesAttempted := r.fst
        sleepsMs := r.snd.fst }

/-- Modelled from the spec: the average-slot-time contract of §4.1 — the
cached value inside the 30 s window, otherwise `sample_period_secs /
num_slots` from the first of at most three attempts that yields a usable
sample, otherwise 400 ms.  Comparison point for the refinement theorem;
the executable embedding of the source is `getAverageSlotTime` above. -/
def avgSlotTimeSpec (nowMs : Nat) (cache : PerformanceCache)
    (fetch : Nat → Except String (List PerformanceSample)) : Nat :=
  if nowMs - cache.lastUpdatedMs < 30000 then cache.avgSlotTimeMs
  else
    match (List.range 3).findSome? (fun i => avgFromAttempt (fetch i)) with
    | some ms => ms
    | none => 400

/-! ## Hook environment (internal/hooks/hooks.go, internal/utils/utils.go)

`Hook.Run` builds the child environment by ranging over
`utils.SortStringMap(envMap)` and appending
`SOLANA_VALIDATOR_FAILOVER_<key>=<TrimSpace(value)>` entries.  A Go map
carries no order, and `range` over one visits entries in an order the
language leaves unspecified, so the applied order is modelled as an
arbitrary permutation of the map contents. -/

/-- Go `unicode.IsSpace` on the Latin-1 range (the range hook env values
use); the higher Unicode White_Space code points are outside the model. -/
def isGoSpace (c : Char) : Bool :=
  c = ' ' || c = Char.ofNat 9 || c = Char.ofNat 10 || c = Char.ofNat 11 ||
  c = Char.ofNat 12 || c = Char.ofNat 13 || c = Char.ofNat 133 || c = Char.ofNat 160

/-- Mirror of Go `strings.TrimSpace`: drop leading and trailing
whitespace. -/
def trimSpace (s : String) : String :=
  String.mk (((s.data.dropWhile isGoSpace).reverse.dropWhile isGoSpace).reverse)

/-- Go's byte-wise string order (`a <= b` on strings), on the character
data. -/
def goStringLeData : List Char → List Char → Bool
  | [], _ => true
  | _ :: _, [] => false
  | a :: as, b :: bs =>
    if a.toNat < b.toNat then true
    else if b.toNat < a.toNat then false
    else goStringLeData as bs

/-- Go string comparison `a <= b`. -/
def goStringLe (a b : String) : Bool := goStringLeData a.data b.data

/-- Insertion of a key into an ascending list, the building block of the
ascending sort below. -/
def insertSortedKey (k : String) : List String → List String
  | [] => [k]
  | x :: xs => if goStringLe k x then k :: x :: xs else x :: insertSortedKey k xs

/-- Ascending sort of the key slice, standing for `slices.Sort(keys)`. -/
def sortKeys (keys : List String) : List String :=
  keys.foldr insertSortedKey []

/-- Association-list lookup with the Go zero value for a missing key. -/
def lookupString (m : List (String × String)) (k : String) : String :=
  match m.find? (fun kv => kv.fst == k) with
  | some kv => kv.snd
  | none => ""

/-- Mirror of `utils.SortStringMap`: collect the keys, sort them, and
rebuild the map by inserting in sorted order.  The result type is again a
Go map, which retains no insertion order. -/
def sortStringMap (m : List (String × String)) : List (String × String) :=
  (sortKeys (m.map Prod.fst)).map (fun k => (k, lookupString m k))

/-- One environment entry as `Hook.Run` formats it. -/
def hookEnvEntry (k v : String) : String :=
  "SOLANA_VALIDATOR_FAILOVER_" ++ k ++ "=" ++ trimSpace v

/-- The environments `Hook.Run` may hand the child process: Go specifies
only that `range` visits every entry of `SortStringMap(envMap)` exactly
once, in some order of the runtime's choosing, so any permutation of the
rebuilt map is a legal application order. -/
def HookRunEnv (envMap : List (String × String)) (entries : List String) : Prop :=
  ∃ applied : List (String × String),
    List.Perm applied (sortStringMap envMap) ∧
    entries = applied.map (fun kv => hookEnvEntry kv.fst kv.snd)

/-! ## Identity loading (internal/identities/identities.go,
internal/utils/utils.go)

`NewIdentityFromFile` resolves the path (empty paths fail, `~/` expands
against the home directory, the result is made absolute), allocates the
`Identity` with the resolved path, then parses the keygen file; a parse
failure still returns the allocated value together with the wrapped
error.  The OS services (`os.UserHomeDir`, `filepath.Abs`) and the
external keygen parser are parameters. -/

/-- Go `strings.HasPrefix(path, "~/")` on the character data. -/
def hasTildeSlash (path : String) : Bool :=
  match path.data with
  | c1 :: c2 :: _ => c1 = '~' && c2 = '/'
  | _ => false

/-- Mirror of `utils.ResolvePath`.  `homeDir` stands for
`os.UserHomeDir` and `abs` for `filepath.Abs` (whose own failure mode,
an unreadable working directory, is outside the model); `filepath.Join`
is modelled as separator concatenation. -/
def resolvePath (homeDir : Except String String) (abs : String → String)
    (path : String) : Except String String :=
  if path = "" then Except.error "path is empty"
  else if hasTildeSlash path then
    match homeDir with
    | Except.error e => Except.error ("failed to get user home directory: " ++ e)
    | Except.ok home => Except.ok (abs (home ++ "/" ++ path.drop 2))
  else Except.ok (abs path)

/-- The `identities.Identity` record: the resolved key-file path and the
parsed private key, `none` standing for the Go `nil` key. -/
structure IdentityRecord where
  keyFile : String
  key : Option (List Nat)
  deriving Repr, DecidableEq

/-- Mirror of `identities.NewIdentityFromFile`: the pair is Go's
`(identity *Identity, err error)` with `none` for `nil`. -/
def newIdentityFromFile (homeDir : Except String String) (abs : String → String)
    (parseKeygen : String → Except String (List Nat)) (keyFile : String) :
    Option IdentityRecord × Option String :=
  match resolvePath homeDir abs keyFile with
  | Except.error e => (none, some ("failed to resolve path: " ++ e))
  | Except.ok keyFileAbsolutePath =>
    match parseKeygen keyFileAbsolutePath with
    | Except.error e =>
      (some { keyFile := keyFileAbsolutePath, key := none },
        some ("failed to parse keygen file: " ++ e))
    | Except.ok key =>
      (some { keyFile := keyFileAbsolutePath, key := some key }, none)

/-! ## FailoverMessage serialization (internal/failover/stream.go,
message.go)

The source serializes the single mutable `Message` with `encoding/gob`:
one encoder and one decoder are created per stream (`NewFailoverStream`)
and every exchange re-encodes the whole value.  The gob wire format is
library code outside this repository; the definitions below are Modelled
from the spec: a self-describing length-delimited encoding over a token
stream that preserves field identity and order across repeated
encode/decode pairs on one stream (spec §4.3, §9).  The `Message`
structure itself is copied field-for-field from the source. -/

/-- Token encoding of a `Nat` field (slots, timestamps). -/
def encNat (n : Nat) : List Nat := [n]

/-- Token decoding of a `Nat` field. -/
def decNat : List Nat → Option (Nat × List Nat)
  | [] => none
  | n :: rest => some (n, rest)

/-- Token encoding of a `Bool` field. -/
def encBool (b : Bool) : List Nat := [if b then 1 else 0]

/-- Token decoding of a `Bool` field. -/
def decBool : List Nat → Option (Bool × List Nat)
  | 0 :: rest => some (false, rest)
  | 1 :: rest => some (true, rest)
  | _ => none

/-- Token encoding of a Go `int` field: sign then magnitude. -/
def encInt (i : Int) : List Nat := (if i < 0 then 1 else 0) :: [i.natAbs]

/-- Token decoding of a Go `int` field. -/
def decInt : List Nat → Option (Int × List Nat)
  | 0 :: n :: rest => some ((n : Int), rest)
  | 1 :: n :: rest => some (-(n : Int), rest)
  | _ => none

/-- Length-prefixed string encoding. -/
def encString (s : String) : List Nat := s.length :: s.data.map Char.toNat

/-- Reads `n` characters off the token stream. -/
def decChars : Nat → List Nat → Option (List Char × List Nat)
  | 0, rest => some ([], rest)
  | n + 1, rest =>
    match rest with
    | [] => none
    | c :: rest2 =>
      match decChars n rest2 with
      | none => none
      | some (cs, rest3) => some (Char.ofNat c :: cs, rest3)

/-- Length-prefixed string decoding. -/
def decString : List Nat → Option (String × List Nat)
  | [] => none
  | n :: rest =>
    match decChars n rest with
    | none => none
    | some (cs, rest2) => some (String.mk cs, rest2)

/-- Length-prefixed encoding of a list through an element encoder. -/
def encListWith (f : α → List Nat) (l : List α) : List Nat :=
  l.length :: (l.map f).flatten

/-- Reads `n` elements off the token stream through an element decoder. -/
def decListAux (dec : List Nat → Option (α × List Nat)) :
    Nat → List Nat → Option (List α × List Nat)
  | 0, rest => some ([], rest)
  | n + 1, rest =>
    match dec rest with
    | none => none
    | some (a, rest2) =>
      match decListAux dec n rest2 with
      | none => none
      | some (as, rest3) => some (a :: as, rest3)

/-- Length-prefixed decoding of a list through an element decoder. -/
def decListWith (dec : List Nat → Option (α × List Nat)) :
    List Nat → Option (List α × List Nat)
  | [] => none
  | n :: rest => decListAux dec n rest

/-- The `identities.Identity` fields carried inside `NodeInfo` on the
wire (key file path and raw private-key bytes). -/
structure WireIdentity where
  keyFile : String
  key : List Nat
  deriving Repr, DecidableEq

/-- The `identities.Identities` pair carried inside `NodeInfo`. -/
structure WireIdentities where
  active : WireIdentity
  passive : WireIdentity
  deriving Repr, DecidableEq

/-- Field-for-field copy of `failover.NodeInfo` (nodeinfo.go). -/
structure WireNodeInfo where
  publicIP : String
  hostname : String
  identities : WireIdentities
  towerFile : String
  towerFileBytes : List Nat
  towerFileHash : String
  setIdentityCommand : String
  clientVersion : String
  solanaValidatorFailoverVersion : String
  deriving Repr, DecidableEq

/-- Field-for-field copy of `failover.Message` (message.go), timestamps
as `Nat` and the credit-samples map as an association list. -/
structure WireMessage where
  canProceed : Bool
  errorMessage : String
  activeNodeInfo : WireNodeInfo
  passiveNodeInfo : WireNodeInfo
  isDryRunFailover : Bool
  isSuccessfullyCompleted : Bool
  activeNodeSetIdentityStartTime : Nat
  activeNodeSetIdentityEndTime : Nat
  activeNodeSyncTowerFileStartTime : Nat
  activeNodeSyncTowerFileEndTime : Nat
  passiveNodeSetIdentityStartTime : Nat
  passiveNodeSetIdentityEndTime : Nat
  passiveNodeSyncTowerFileEndTime : Nat
  failoverStartSlot : Nat
  failoverEndSlot : Nat
  creditSamples : List (String × List CreditsSample)
  deriving Repr, DecidableEq

/-- Encoder for one identity. -/
def encWireIdentity (x : WireIdentity) : List Nat :=
  encString x.keyFile ++ encListWith encNat x.key

/-- Decoder for one identity. -/
def decWireIdentity (l : List Nat) : Option (WireIdentity × List Nat) :=
  match decString l with
  | none => none
  | some (keyFile, l1) =>
    match decListWith decNat l1 with
    | none => none
    | some (key, l2) => some ({ keyFile := keyFile, key := key }, l2)

/-- Encoder for the identity pair. -/
def encWireIdentities (x : WireIdentities) : List Nat :=
  encWireIdentity x.active ++ encWireIdentity x.passive

/-- Decoder for the identity pair. -/
def decWireIdentities (l : List Nat) : Option (WireIdentities × List Nat) :=
  match decWireIdentity l with
  | none => none
  | some (active, l1) =>
    match decWireIdentity l1 with
    | none => none
    | some (passive, l2) => some ({ active := active, passive := passive }, l2)

/-- Encoder for one credit sample. -/
def encCreditsSample (s : CreditsSample) : List Nat :=
  encString s.voteAccountPubkey ++ encInt s.voteRank ++ encInt s.credits ++ encNat s.timestamp

/-- Decoder for one credit sample. -/
def decCreditsSample (l : List Nat) : Option (CreditsSample × List Nat) :=
  match decString l with
  | none => none
  | some (p, l1) =>
    match decInt l1 with
    | none => none
    | some (rank, l2) =>
      match decInt l2 with
      | none => none
      | some (credits, l3) =>
        match decNat l3 with
        | none => none
        | some (t, l4) =>
          some ({ voteAccountPubkey := p, voteRank := rank, credits := credits, timestamp := t }, l4)

/-- Encoder for one credit-samples map entry. -/
def encSamplesEntry (e : String × List CreditsSample) : List Nat :=
  encString e.fst ++ encListWith encCreditsSample e.snd

/-- Decoder for one credit-samples map entry. -/
def decSamplesEntry (l : List Nat) : Option ((String × List CreditsSample) × List Nat) :=
  match decString l with
  | none => none
  | some (k, l1) =>
    match decListWith decCreditsSample l1 with
    | none => none
    | some (ss, l2) => some ((k, ss), l2)

/-- Encoder for `NodeInfo`. -/
def encWireNodeInfo (x : WireNodeInfo) : List Nat :=
  encString x.publicIP ++ encString x.hostname ++ encWireIdentities x.identities ++
  encString x.towerFile ++ encListWith encNat x.towerFileBytes ++ encString x.towerFileHash ++
  encString x.setIdentityCommand ++ encString x.clientVersion ++
  encString x.solanaValidatorFailoverVersion

/-- Decoder for `NodeInfo`. -/
def decWireNodeInfo (l : List Nat) : Option (WireNodeInfo × List Nat) :=
  match decString l with
  | none => none
  | some (publicIP, l1) =>
    match decString l1 with
    | none => none
    | some (hostname, l2) =>
      match decWireIdentities l2 with
      | none => none
      | some (identities, l3) =>
        match decString l3 with
        | none => none
        | some (towerFile, l4) =>
          match decListWith decNat l4 with
          | none => none
          | some (towerFileBytes, l5) =>
            match decString l5 with
            | none => none
            | some (towerFileHash, l6) =>
              match decString l6 with
              | none => none
              | some (setIdentityCommand, l7) =>
                match decString l7 with
                | none => none
                | some (clientVersion, l8) =>
                  match decString l8 with
                  | none => none
                  | some (svfVersion, l9) =>
                    some ({ publicIP := publicIP, hostname := hostname,
                            identities := identities, towerFile := towerFile,
                            towerFileBytes := towerFileBytes, towerFileHash := towerFileHash,
                            setIdentityCommand := setIdentityCommand,
                            clientVersion := clientVersion,
                            solanaValidatorFailoverVersion := svfVersion }, l9)

/-- Encoder for the whole `FailoverMessage`, fields in declaration
order. -/
def encWireMessage (m : WireMessage) : List Nat :=
  encBool m.canProceed ++ encString m.errorMessage ++
  encWireNodeInfo m.activeNodeInfo ++ encWireNodeInfo m.passiveNodeInfo ++
  encBool m.isDryRunFailover ++ encBool m.isSuccessfullyCompleted ++
  encNat m.activeNodeSetIdentityStartTime ++ encNat m.activeNodeSetIdentityEndTime ++
  encNat m.activeNodeSyncTowerFileStartTime ++ encNat m.activeNodeSyncTowerFileEndTime ++
  encNat m.passiveNodeSetIdentityStartTime ++ encNat m.passiveNodeSetIdentityEndTime ++
  encNat m.passiveNodeSyncTowerFileEndTime ++
  encNat m.failoverStartSlot ++ encNat m.failoverEndSlot ++
  encListWith encSamplesEntry m.creditSamples

/-- Decoder for the whole `FailoverMessage`. -/
def decWireMessage (l : List Nat) : Option (WireMessage × List Nat) :=
  match decBool l with
  | none => none
  | some (canProceed, l1) =>
    match decString l1 with
    | none => none
    | some (errorMessage, l2) =>
      match decWireNodeInfo l2 with
      | none => none
      | some (activeNodeInfo, l3) =>
        match decWireNodeInfo l3 with
        | none => none
        | some (passiveNodeInfo, l4) =>
          match decBool l4 with
          | none => none
          | some (isDryRunFailover, l5) =>
            match decBool l5 with
            | none => none
            | some (isSuccessfullyCompleted, l6) =>
              match decNat l6 with
              | none => none
              | some (t1, l7) =>
                match decNat l7 with
                | none => none
                | some (t2, l8) =>
                  match decNat l8 with
                  | none => none
                  | some (t3, l9) =>
                    match decNat l9 with
                    | none => none
                    | some (t4, l10) =>
                      match decNat l10 with
                      | none => none
                      | some (t5, l11) =>
                        match decNat l11 with
                        | none => none
                        | some (t6, l12) =>
                          match decNat l12 with
                          | none => none
                          | some (t7, l13) =>
                            match decNat l13 with
                            | none => none
                            | some (startSlot, l14) =>
                              match decNat l14 with
                              | none => none
                              | some (endSlot, l15) =>
                                match decListWith decSamplesEntry l15 with
                                | none => none
                                | some (creditSamples, l16) =>
                                  some ({ canProceed := canProceed,
                                          errorMessage := errorMessage,
                                          activeNodeInfo := activeNodeInfo,
                                          passiveNodeInfo := passiveNodeInfo,
                                          isDryRunFailover := isDryRunFailover,
                                          isSuccessfullyCompleted := isSuccessfullyCompleted,
                                          activeNodeSetIdentityStartTime := t1,
                                          activeNodeSetIdentityEndTime := t2,
                                          activeNodeSyncTowerFileStartTime := t3,
                                          activeNodeSyncTowerFileEndTime := t4,
                                          passiveNodeSetIdentityStartTime := t5,
                                          passiveNodeSetIdentityEndTime := t6,
                                          passiveNodeSyncTowerFileEndTime := t7,
                                          failoverStartSlot := startSlot,
                                          failoverEndSlot := endSlot,
                                          creditSamples := creditSamples }, l16)

/-! ## Concrete scenario inputs

Closed instantiations used by the concrete evaluations below: a stand-in
hash implementation, process executors, tower-phase inputs, and a
credit-sampling scenario. -/

/-- A stand-in for the external xxh3 library in concrete runs. -/
def hashZero : List Nat → Nat := fun _ => 0

/-- An executor whose child processes always succeed. -/
def execOk : List String → Except String Unit := fun _ => Except.ok ()

/-- An executor whose child processes always fail. -/
def execRefuses : List String → Except String Unit := fun _ => Except.error "exec failed"

/-- A dry-run tower-phase input whose declared hash matches the received
bytes under `hashZero`, with a successful end-slot read. -/
def towerInputDryRun : TowerPhaseInput :=
  { towerFileBytes := [222, 173, 190, 239]
    towerFileHash := "xxh3:0"
    activeHostname := "nodeA"
    activeTowerFile := "/a/ledger/tower.bin"
    passiveTowerFile := "/b/ledger/tower.bin"
    passiveSetIdentityCommand := "agave-validator set-identity /b/keys/active.json"
    userEnv := "sol"
    isDryRunFailover := true
    logDebugEnabled := false
    failoverStartSlot := 100
    failoverEndSlotPrev := 0
    writeOk := true
    closeOk := true
    currentSlotResult := Except.ok 101 }

/-- A real-run tower-phase input whose end-slot RPC read fails while the
client-supplied start slot is 5. -/
def towerInputSlotReadFails : TowerPhaseInput :=
  { towerFileBytes := [1]
    towerFileHash := "xxh3:0"
    activeHostname := "nodeA"
    activeTowerFile := "/a/ledger/tower.bin"
    passiveTowerFile := "/b/ledger/tower.bin"
    passiveSetIdentityCommand := "agave-validator set-identity /b/keys/active.json"
    userEnv := "sol"
    isDryRunFailover := false
    logDebugEnabled := false
    failoverStartSlot := 5
    failoverEndSlotPrev := 0
    writeOk := true
    closeOk := true
    currentSlotResult := Except.error "rpc timeout" }

/-- The credit-samples map after the single pre-failover pull: one
sample for the active identity pubkey. -/
def preFailoverSamples : CreditSamplesMap :=
  [("PubA", [{ voteAccountPubkey := "", voteRank := 42, credits := 100, timestamp := 1000 }])]

/-- A credit-rank RPC that always answers with the same account and rank. -/
def fetchCredits : Nat → Except String (VoteAccountM × Int) :=
  fun _ => Except.ok ({ epochCredits := [[0, 100, 50]] }, 42)

/-- A sample clock. -/
def sampleTimes : Nat → Nat := fun i => 1000 + i

/-! ## Serialization round-trip lemmas -/

/-- Reading a `Nat` token back. -/
theorem decNat_enc (n : Nat) (r : List Nat) : decNat (encNat n ++ r) = some (n, r) := rfl

/-- Reading a `Bool` token back. -/
theorem decBool_enc (b : Bool) (r : List Nat) : decBool (encBool b ++ r) = some (b, r) := by
  cases b <;> rfl

/-- Reading an `Int` token pair back. -/
theorem decInt_enc (i : Int) (r : List Nat) : decInt (encInt i ++ r) = some (i, r) := by
  by_cases h : i < 0
  · simp only [encInt, if_pos h, List.cons_append, List.singleton_append, decInt,
      Option.some.injEq, Prod.mk.injEq]
    exact ⟨by omega, rfl⟩
  · simp only [encInt, if_neg h, List.cons_append, List.singleton_append, decInt,
      Option.some.injEq, Prod.mk.injEq]
    exact ⟨by omega, rfl⟩

/-- Reading an exact character count back. -/
theorem decChars_enc (cs : List Char) (r : List Nat) :
    decChars cs.length (cs.map Char.toNat ++ r) = some (cs, r) := by
  induction cs with
  | nil => rfl
  | cons c cs ih => simp [decChars, ih, Char.ofNat_toNat]

/-- Reading a string back. -/
theorem decString_enc (s : String) (r : List Nat) :
    decString (encString s ++ r) = some (s, r) := by
  cases s with
  | mk data => simp [encString, decString, String.length, decChars_enc]

/-- Reading an exact element count back, given the element codec is
right-inverse. -/
theorem decListAux_enc (dec : List Nat → Option (α × List Nat)) (f : α → List Nat)
    (H : ∀ a r, dec (f a ++ r) = some (a, r)) (l : List α) (r : List Nat) :
    decListAux dec l.length ((l.map f).flatten ++ r) = some (l, r) := by
  induction l generalizing r with
  | nil => rfl
  | cons a as ih => simp [decListAux, List.append_assoc, H, ih]

/-- Reading a length-prefixed list back. -/
theorem decListWith_enc (dec : List Nat → Option (α × List Nat)) (f : α → List Nat)
    (H : ∀ a r, dec (f a ++ r) = some (a, r)) (l : List α) (r : List Nat) :
    decListWith dec (encListWith f l ++ r) = some (l, r) := by
  simp [encListWith, decListWith, decListAux_enc dec f H]

/-- Reading an identity back. -/
theorem decWireIdentity_enc (x : WireIdentity) (r : List Nat) :
    decWireIdentity (encWireIdentity x ++ r) = some (x, r) := by
  simp [encWireIdentity, decWireIdentity, List.append_assoc, decString_enc,
    decListWith_enc decNat encNat decNat_enc]

/-- Reading the identity pair back. -/
theorem decWireIdentities_enc (x : WireIdentities) (r : List Nat) :
    decWireIdentities (encWireIdentities x ++ r) = some (x, r) := by
  simp [encWireIdentities, decWireIdentities, List.append_assoc, decWireIdentity_enc]

/-- Reading one credit sample back. -/
theorem decCreditsSample_enc (s : CreditsSample) (r : List Nat) :
    decCreditsSample (encCreditsSample s ++ r) = some (s, r) := by
  simp [encCreditsSample, decCreditsSample, List.append_assoc, decString_enc,
    decInt_enc, decNat_enc]

/-- Reading one credit-samples map entry back. -/
theorem decSamplesEntry_enc (e : String × List CreditsSample) (r : List Nat) :
    decSamplesEntry (encSamplesEntry e ++ r) = some (e, r) := by
  cases e with
  | mk k ss =>
    simp [encSamplesEntry, decSamplesEntry, List.append_assoc, decString_enc,
      decListWith_enc decCreditsSample encCreditsSample decCreditsSample_enc]

/-- Reading a `NodeInfo` back. -/
theorem decWireNodeInfo_enc (x : WireNodeInfo) (r : List Nat) :
    decWireNodeInfo (encWireNodeInfo x ++ r) = some (x, r) := by
  simp [encWireNodeInfo, decWireNodeInfo, List.append_assoc, decString_enc,
    decWireIdentities_enc, decListWith_enc decNat encNat decNat_enc]

/-- Reading a whole `FailoverMessage` back. -/
theorem decWireMessage_enc (m : WireMessage) (r : List Nat) :
    decWireMessage (encWireMessage m ++ r) = some (m, r) := by
  simp [encWireMessage, decWireMessage, List.append_assoc, decBool_enc, decString_enc,
    decWireNodeInfo_enc, decNat_enc,
    decListWith_enc decSamplesEntry encSamplesEntry decSamplesEntry_enc]

/-- C9: encoding a `FailoverMessage` and decoding it on the other end is
the identity on every field, with the trailing stream preserved; hence a
single encoder/decoder pair per stream decodes every exchange of a
ping-pong sequence back to the value that was encoded. -/
theorem failover_message_roundtrip :
    (∀ (m : WireMessage) (rest : List Nat),
      decWireMessage (encWireMessage m ++ rest) = some (m, rest)) ∧
    (∀ (msgs : List WireMessage) (rest : List Nat),
      decListAux decWireMessage msgs.length ((msgs.map encWireMessage).flatten ++ rest)
        = some (msgs, rest)) :=
  ⟨decWireMessage_enc, decListAux_enc decWireMessage encWireMessage decWireMessage_enc⟩

/-! ## Tower transfer, dry run, slot markers -/

/-- C1: on the passive side, the tower-file write is reached if and only
if the xxh3 hash computed over the received bytes (formatted
`xxh3:<hex>`) equals the transmitted `tower_file_hash`; when the write
succeeds exactly the received bytes are persisted; and on a mismatch
nothing is persisted and the phase exits fatally carrying the manual
rsync command and the manual set-identity command. -/
theorem tower_transfer_hash_gate (xxh3 : List Nat → Nat)
    (exec : List String → Except String Unit) (inp : TowerPhaseInput) :
    ((serverTowerPhase xxh3 exec inp).towerWriteAttempted = true ↔
      computeTowerFileHashFromBytes xxh3 inp.towerFileBytes = inp.towerFileHash)
    ∧ (computeTowerFileHashFromBytes xxh3 inp.towerFileBytes = inp.towerFileHash →
        inp.writeOk = true →
        (serverTowerPhase xxh3 exec inp).persistedBytes = some inp.towerFileBytes)
    ∧ (computeTowerFileHashFromBytes xxh3 inp.towerFileBytes ≠ inp.towerFileHash →
        serverTowerPhase xxh3 exec inp =
          TowerPhaseResult.fatalHashMismatch
            (rsyncRecoveryCommand inp.userEnv inp.activeHostname inp.activeTowerFile
              inp.passiveTowerFile)
            inp.passiveSetIdentityCommand ∧
        (serverTowerPhase xxh3 exec inp).persistedBytes = none) := by
  by_cases h : computeTowerFileHashFromBytes xxh3 inp.towerFileBytes = inp.towerFileHash
  · refine ⟨?_, ?_, fun hc => absurd h hc⟩
    · unfold serverTowerPhase
      rw [if_neg (by simp [h])]
      simp only [h, eq_self_iff_true, iff_true]
      split
      · rfl
      · split
        · rfl
        · split <;> rfl
    · intro _ hw
      unfold serverTowerPhase
      rw [if_neg (by simp [h])]
      simp only [hw, Bool.not_true, Bool.false_eq_true, if_false]
      split
      · rfl
      · split <;> rfl
  · refine ⟨?_, fun hc => absurd hc h, fun _ => ?_⟩
    · unfold serverTowerPhase
      simp [h, TowerPhaseResult.towerWriteAttempted]
    · unfold serverTowerPhase
      simp [h, TowerPhaseResult.persistedBytes]

/-- Witness for C1: a concrete matching transfer persists exactly the
transferred bytes. -/
theorem tower_transfer_hash_gate_witness :
    (serverTowerPhase hashZero execOk towerInputDryRun).persistedBytes
      = some [222, 173, 190, 239] := by
  have h := tower_transfer_hash_gate hashZero execOk towerInputDryRun
  exact h.2.1 (by decide) rfl

/-- C2: the command runner spawns no process and reports success
whenever the dry-run flag is set, spawns the command exactly when the
flag is clear, and under a dry run the passive-side switchover still
executes every other step (tower write, timestamps, slot markers,
completion) with no process spawned. -/
theorem dry_run_gate (exec : List String → Except String Unit)
    (params : RunCommandParams) (xxh3 : List Nat → Nat) (inp : TowerPhaseInput) :
    (params.dryRun = true →
      runCommand exec params = { spawned := none, result := Except.ok () })
    ∧ ((runCommand exec params).spawned = none ↔ params.dryRun = true)
    ∧ (computeTowerFileHashFromBytes xxh3 inp.towerFileBytes = inp.towerFileHash →
        inp.writeOk = true → inp.closeOk = true → inp.isDryRunFailover = true →
        serverTowerPhase xxh3 exec inp = TowerPhaseResult.completed
          { writtenTowerBytes := inp.towerFileBytes
            passiveSyncTowerEndStamped := true
            passiveSetIdentityStartStamped := true
            passiveSetIdentityEndStamped := true
            spawnedSetIdentity := none
            failoverEndSlot :=
              serverFailoverEndSlotUpdate inp.failoverStartSlot inp.failoverEndSlotPrev
                inp.currentSlotResult
            isSuccessfullyCompleted := true }) := by
  refine ⟨fun hd => by simp [runCommand, hd], ?_, fun hh hw hcl hd => ?_⟩
  · unfold runCommand
    cases hd : params.dryRun <;> simp
  · unfold serverTowerPhase
    simp [hh, hw, hcl, hd, runCommand]

/-- Witness for C2: with an executor that would fail any real
invocation, a concrete dry run spawns nothing, reports success, and the
switchover still completes every other step. -/
theorem dry_run_gate_witness :
    runCommand execRefuses { commandSlice := ["x"], dryRun := true, logDebug := false }
      = { spawned := none, result := Except.ok () }
    ∧ serverTowerPhase hashZero execRefuses towerInputDryRun = TowerPhaseResult.completed
        { writtenTowerBytes := [222, 173, 190, 239]
          passiveSyncTowerEndStamped := true
          passiveSetIdentityStartStamped := true
          passiveSetIdentityEndStamped := true
          spawnedSetIdentity := none
          failoverEndSlot := 101
          isSuccessfullyCompleted := true } := by
  have h := dry_run_gate execRefuses
    { commandSlice := ["x"], dryRun := true, logDebug := false } hashZero towerInputDryRun
  exact ⟨h.1 rfl, by
    have h2 := h.2.2 (by decide) rfl rfl rfl
    simpa using h2⟩

/-- C3 counterexample: a run that reaches the completion encode with the
end-slot RPC read failing leaves `failover_end_slot` at its previous
value 0 while the client-supplied `failover_start_slot` is 5, so the
claimed invariant `failover_start_slot ≤ failover_end_slot` fails on
this completed run. -/
theorem failover_slot_invariant_counterexample :
    (serverTowerPhase hashZero execOk towerInputSlotReadFails).completedOk = true
    ∧ (serverTowerPhase hashZero execOk towerInputSlotReadFails).completedEndSlot = some 0
    ∧ towerInputSlotReadFails.failoverStartSlot = 5
    ∧ ¬ (5 ≤ (0 : Nat)) := by
  refine ⟨by decide, by decide, rfl, by omega⟩

/-- C3 (amended): whenever the passive side's current-slot read
succeeds, the end-slot marker is the observed slot clamped up to the
client-supplied start slot, so `failover_start_slot ≤ failover_end_slot`;
when the read fails, the end slot is left at its previous message value
(0 on a first run), which can be below the start slot.  The client sets
`failover_start_slot` to the observed slot plus one. -/
theorem failover_slot_clamp (start prev observed : Nat) (e : String) :
    serverFailoverEndSlotUpdate start prev (Except.ok observed)
      = (if observed < start then start else observed)
    ∧ start ≤ serverFailoverEndSlotUpdate start prev (Except.ok observed)
    ∧ serverFailoverEndSlotUpdate start prev (Except.error e) = prev := by
  refine ⟨rfl, ?_, rfl⟩
  show start ≤ (if observed < start then start else observed)
  split <;> omega

/-! ## Admission gossip-presence check -/

/-- C4 counterexample: in a cluster where no node advertises the passive
identity's pubkey, the active (departing) side still proceeds: its
admission (`Validator.makePassive`) consults only the local role and the
local tower file and performs no cluster-RPC presence check at all, so it
reaches the client connect. -/
theorem active_side_gossip_check_counterexample :
    gossipWithoutPassivePeer "PassivePub"
      = Except.error ("gossip node not found for pubkey: " ++ "PassivePub")
    ∧ makePassiveAdmission false "/a/ledger/tower.bin" true 4
        = MakePassiveAdmission.proceedToClient := by
  exact ⟨by decide, by decide⟩

/-- C4 (amended): the gossip-presence check runs on the passive
(arriving) side, before it starts the failover server: `makeActive`
refuses to proceed whenever no cluster node advertises the ACTIVE
identity's pubkey. -/
theorem passive_side_gossip_admission
    (nodeFromPubkey : String → Except String GossipNodeM)
    (activePubkey activeKeyFile towerFile : String)
    (towerFileExists autoDelete : Bool) (removeResult : Except String Unit)
    (e : String) (h : nodeFromPubkey activePubkey = Except.error e) :
    makeActiveAdmission false nodeFromPubkey activePubkey activeKeyFile towerFile
        towerFileExists autoDelete removeResult
      = MakeActiveAdmission.activePeerNotInGossip
          ("active peer not found in gossip with pubkey " ++ activePubkey
            ++ " from file " ++ activeKeyFile ++ ": " ++ e) := by
  simp [makeActiveAdmission, h]

/-- Witness for the amended C4: the passive side refuses concretely when
the active pubkey is missing from gossip. -/
theorem passive_side_gossip_admission_witness :
    makeActiveAdmission false gossipWithoutPassivePeer "OtherPub" "/k/active.json"
        "/a/ledger/tower.bin" false false (Except.ok ())
      = MakeActiveAdmission.activePeerNotInGossip
          ("active peer not found in gossip with pubkey " ++ "OtherPub"
            ++ " from file " ++ "/k/active.json" ++ ": "
            ++ ("gossip node not found for pubkey: " ++ "OtherPub")) := by
  exact passive_side_gossip_admission gossipWithoutPassivePeer "OtherPub" "/k/active.json"
    "/a/ledger/tower.bin" false false (Except.ok ())
    ("gossip node not found for pubkey: " ++ "OtherPub") (by decide)

/-! ## Post-flight credit monitoring -/

/-- C5: evaluation of the post-flight monitoring at the shipped wiring.
`makeActive` builds the server configuration without its `MonitorConfig`
field, so the server pulls `0` additional samples (the loaded default is
5), the rank-change report then fails with "not enough vote credit
samples", and the multi-sample mode spaces pulls a hard-coded 5000 ms
apart — the function never reads the configured interval. -/
theorem post_flight_monitoring_bug :
    makeActiveServerMonitorConfig.creditSamples.count = 0
    ∧ defaultFailoverMonitorCreditSamplesCount = 5
    ∧ serverPostFlightMonitoring fetchCredits sampleTimes "PubA" preFailoverSamples
        makeActiveServerMonitorConfig.creditSamples.count
      = ({ samples := preFailoverSamples, warnings := [], sleepsMs := [], err := none },
          some (Except.error "not enough vote credit samples to calculate difference"))
    ∧ creditSamplesPullIntervalMs = 5000
    ∧ (pullActiveIdentityVoteCreditsSamples fetchCredits sampleTimes "PubA"
        preFailoverSamples 3).sleepsMs = [5000, 5000, 5000]
    ∧ getVoteCreditRankDifference "PubA"
        [("PubA", [{ voteAccountPubkey := "", voteRank := 42, credits := 100, timestamp := 1000 },
                   { voteAccountPubkey := "", voteRank := 40, credits := 120, timestamp := 1005 }])]
      = Except.ok (-1 * (40 - 42), 42, 40) := by
  refine ⟨rfl, rfl, by decide, rfl, by decide, by decide⟩

/-! ## Leader-slot computation -/

/-- The source's sentinel scan agrees with a first-match search over the
converted absolute slots. -/
theorem findNextLeaderSlot_eq_find (first current : Nat) (slots : List Nat) :
    findNextLeaderSlot first current slots
      = (match (slots.map (fun r => u64Add first r)).find?
            (fun a => decide (current < a)) with
        | none => 0
        | some a => a) := by
  induction slots with
  | nil => rfl
  | cons r rest ih =>
    simp only [findNextLeaderSlot, List.map_cons, List.find?_cons]
    by_cases hr : current < u64Add first r
    · simp [hr]
    · simp [hr, ih]

/-- C6: the leader-slot observer (epoch-relative variant), on successful
RPC reads, computes exactly the specified estimate: convert each
epoch-relative entry with `first_slot_of_epoch = absolute_slot -
slot_index`, pick the first converted slot strictly greater than the
current slot and return `(true, slot_delta * average_slot_time)`;
return `(false, 0)` both when the pubkey is absent from the schedule and
when the pubkey has no future slots left in the epoch. -/
theorem time_to_next_leader_slot_matches_spec (currentSlot : Nat)
    (epochInfo : EpochInfoM) (schedule : LeaderSchedule) (avgSlotTime : Nat)
    (pubkey : String) :
    getTimeToNextLeaderSlotForPubkey (Except.ok currentSlot) (Except.ok epochInfo)
        (Except.ok schedule) (Except.ok avgSlotTime) pubkey
      = Except.ok (timeToNextLeaderSlotSpec currentSlot epochInfo schedule avgSlotTime pubkey) := by
  unfold getTimeToNextLeaderSlotForPubkey timeToNextLeaderSlotSpec
  cases hl : scheduleLookup schedule pubkey with
  | none => simp [hl]
  | some slots =>
    simp only [hl]
    rw [findNextLeaderSlot_eq_find]
    cases hf : (slots.map (fun r => u64Add (u64Sub epochInfo.absoluteSlot epochInfo.slotIndex) r)).find?
        (fun a => decide (currentSlot < a)) with
    | none => simp
    | some a =>
      have ha : currentSlot < a := by
        have hmem := List.find?_some hf
        simpa using hmem
      have hne : ¬ (a = 0) := by omega
      simp [hne]

/-! ## Average slot time -/

/-- The retry loop returns the first usable attempt among the next `n`
fetches. -/
theorem avgSlotTimeAttempts_result (fetch : Nat → Except String (List PerformanceSample)) :
    ∀ (n i : Nat),
      (avgSlotTimeAttempts fetch i n).snd.snd
        = (List.range' i n).findSome? (fun j => avgFromAttempt (fetch j)) := by
  intro n
  induction n with
  | zero => intro i; rfl
  | succ m ih =>
    intro i
    simp only [avgSlotTimeAttempts, List.range', List.findSome?]
    cases hf : avgFromAttempt (fetch i) with
    | some ms => simp
    | none =>
      by_cases hm : m = 0
      · subst hm; simp [List.findSome?]
      · simp [hm, ih]

/-- The retry loop makes at most `n` fetch attempts and every sleep it
performs is exactly 1000 ms. -/
theorem avgSlotTimeAttempts_bounds (fetch : Nat → Except String (List PerformanceSample)) :
    ∀ (n i : Nat),
      (avgSlotTimeAttempts fetch i n).fst ≤ n
      ∧ ((avgSlotTimeAttempts fetch i n).snd.fst.all (fun s => s == 1000)) = true := by
  intro n
  induction n with
  | zero => intro i; exact ⟨Nat.le_refl 0, rfl⟩
  | succ m ih =>
    intro i
    cases hf : avgFromAttempt (fetch i) with
    | some ms => constructor <;> simp [avgSlotTimeAttempts, hf]
    | none =>
      by_cases hm : m = 0
      · subst hm
        constructor <;> simp [avgSlotTimeAttempts, hf]
      · constructor
        · have h1 := (ih (i + 1)).1
          simp only [avgSlotTimeAttempts, hf]
          rw [if_neg hm]
          omega
        · have h2 := (ih (i + 1)).2
          simp only [avgSlotTimeAttempts, hf]
          rw [if_neg hm]
          simp [List.all_cons, h2]

/-- C7: the slot-time estimator returns the cached value inside the 30 s
window; on a stale cache it returns `sample_period_secs * 1000 /
num_slots` milliseconds from the first of at most three fetch attempts
that yields a usable sample, or the 400 ms fallback when all fail, and
rewrites the cache with the result; every inter-attempt sleep is one
second.  The read/write lock and its double-checked re-test only
serialize concurrent callers and collapse in this sequential embedding;
the source computes the division in float64, modelled here at exact
millisecond precision. -/
theorem avg_slot_time_matches_spec (nowMs : Nat) (cache : PerformanceCache)
    (fetch : Nat → Except String (List PerformanceSample)) :
    (getAverageSlotTime nowMs cache fetch).avgSlotTimeMs = avgSlotTimeSpec nowMs cache fetch
    ∧ (getAverageSlotTime nowMs cache fetch).cache
        = (if nowMs - cache.lastUpdatedMs < 30000 then cache
          else { avgSlotTimeMs := avgSlotTimeSpec nowMs cache fetch, lastUpdatedMs := nowMs })
    ∧ (getAverageSlotTime nowMs cache fetch).fetchesAttempted ≤ 3
    ∧ ((getAverageSlotTime nowMs cache fetch).sleepsMs.all (fun s => s == 1000)) = true := by
  by_cases hfresh : nowMs - cache.lastUpdatedMs < 30000
  · simp [getAverageSlotTime, avgSlotTimeSpec, hfresh]
  · have hres := avgSlotTimeAttempts_result fetch 3 0
    have hbounds := avgSlotTimeAttempts_bounds fetch 3 0
    have hrange : List.range' 0 3 = List.range 3 := by decide
    rw [hrange] at hres
    cases hr : (avgSlotTimeAttempts fetch 0 3).snd.snd with
    | some ms =>
      rw [hr] at hres
      simp [getAverageSlotTime, avgSlotTimeSpec, hfresh, hr, ← hres, hbounds.1, hbounds.2]
    | none =>
      rw [hr] at hres
      simp [getAverageSlotTime, avgSlotTimeSpec, hfresh, hr, ← hres, hbounds.1, hbounds.2]

/-! ## Hook environment -/

/-- C8: evaluation at a two-entry env map.  Go leaves map iteration
order unspecified, so `Hook.Run` — which ranges over the map returned by
`SortStringMap` — may legally apply the keys in the unsorted order shown,
while the values it applies are whitespace-trimmed as claimed. -/
theorem hook_env_order_and_trim :
    HookRunEnv [("B_KEY", " 1 "), ("A_KEY", "2\n")]
      [hookEnvEntry "B_KEY" " 1 ", hookEnvEntry "A_KEY" "2\n"]
    ∧ hookEnvEntry "B_KEY" " 1 " = "SOLANA_VALIDATOR_FAILOVER_B_KEY=1"
    ∧ hookEnvEntry "A_KEY" "2\n" = "SOLANA_VALIDATOR_FAILOVER_A_KEY=2"
    ∧ ¬ ([("B_KEY", " 1 "), ("A_KEY", "2\n")].map Prod.fst
          = sortKeys ([("B_KEY", " 1 "), ("A_KEY", "2\n")].map Prod.fst)) := by
  refine ⟨⟨[("B_KEY", " 1 "), ("A_KEY", "2\n")], ?_, rfl⟩, by decide, by decide, by decide⟩
  decide

/-! ## Identity loading -/

/-- C10: `NewIdentityFromFile` on an empty path returns a nil identity
and a path-resolution error; on a path that resolves but whose keygen
file fails to parse (missing, unreadable, or invalid) it returns a
non-nil identity carrying the resolved absolute path with a nil key,
together with the error wrapped as "failed to parse keygen file". -/
theorem identity_loading_partial_result
    (homeDir : Except String String) (abs : String → String)
    (parseKeygen : String → Except String (List Nat)) (keyFile q e : String) :
    (newIdentityFromFile homeDir abs parseKeygen ""
      = (none, some ("failed to resolve path: " ++ "path is empty")))
    ∧ (resolvePath homeDir abs keyFile = Except.ok q →
        parseKeygen q = Except.error e →
        newIdentityFromFile homeDir abs parseKeygen keyFile
          = (some { keyFile := q, key := none },
              some ("failed to parse keygen file: " ++ e))) := by
  constructor
  · simp [newIdentityFromFile, resolvePath]
  · intro h1 h2
    simp [newIdentityFromFile, h1, h2]

/-- Witness for C10: a concrete missing keygen file yields the non-nil
partial identity and the wrapped parse error. -/
theorem identity_loading_partial_result_witness :
    newIdentityFromFile (Except.ok "/home/sol") (fun p => p)
        (fun _ => Except.error "open failed") "/k/missing.json"
      = (some { keyFile := "/k/missing.json", key := none },
          some ("failed to parse keygen file: " ++ "open failed")) := by
  have h := identity_loading_partial_result (Except.ok "/home/sol") (fun p => p)
    (fun _ => Except.error "open failed") "/k/missing.json" "/k/missing.json" "open failed"
  exact h.2 (by decide) rfl

end SVF
